import Mathlib

/-!
Shallow embedding of the VeriTrace data-validation engine
(`src/data_platform/validation/anomaly_detection.py`,
`src/data_platform/validation/data_quality.py`,
`src/data_platform/core/platform.py`) and proofs of the specification
claims about it.

Modelling conventions:
* A pandas DataFrame is a `Dataset`: a list of named, dtype-tagged columns
  whose cells are numeric, string, or null (NaN).
* Machine floats are modelled by `ℚ`.  pandas returns NaN for the mean /
  std of an empty (resp. singleton, for ddof=1 std) collection and every
  comparison with NaN is false; we model this by returning 0 from those
  degenerate cases, which falsifies the same `> 0` guards the source uses.
* The sklearn model fits (`IsolationForest.fit_predict`,
  `DBSCAN.fit_predict`) are external, possibly-raising computations; they
  enter the embedding as `Except String (List Int)` parameters (`.ok`
  carries the per-row labels, `-1` meaning anomaly / noise, `.error`
  models a raised exception caught by the fail-soft handlers).
* A z-score comparison `|x - m| / s > t` with `s = √v > 0` is embedded as
  `(x - m)^2 > t^2 * v`, which is exactly equivalent and keeps the
  development inside `ℚ` (no square roots).
-/

/-- A cell of a DataFrame: a numeric value, a string, or a null (NaN/None). -/
inductive Cell where
  | num (q : ℚ)
  | str (s : String)
  | null
deriving DecidableEq, Repr

/-- The dtype classification pandas assigns to a column: numeric
(`select_dtypes(include=[np.number])`) or object (text). -/
inductive Dtype where
  | numeric
  | object
deriving DecidableEq, Repr

/-- A named DataFrame column with its dtype tag and cells in row order. -/
structure Column where
  name : String
  dtype : Dtype
  cells : List Cell
deriving DecidableEq, Repr

/-- A DataFrame: columns in declared order.  Rows are shared ordinal
positions across the columns' cell lists. -/
structure Dataset where
  cols : List Column
deriving DecidableEq, Repr

/-- `len(df)`: the common row count (0 for a column-free frame). -/
def Dataset.nrows (df : Dataset) : ℕ :=
  match df.cols with
  | [] => 0
  | c :: _ => c.cells.length

def Cell.isNum : Cell → Bool
  | .num _ => true
  | _ => false

def Cell.isNull : Cell → Bool
  | .null => true
  | _ => false

/-- A column is well typed when its cells match its dtype tag: a numeric
column holds numbers and NaNs, an object column holds no raw numbers. -/
def Column.wellTyped (c : Column) : Bool :=
  match c.dtype with
  | .numeric => c.cells.all (fun cell => cell.isNum || cell.isNull)
  | .object => c.cells.all (fun cell => !cell.isNum)

/-- Well-formedness of a DataFrame: every column has the common length and
is well typed. -/
def Dataset.wf (df : Dataset) : Bool :=
  df.cols.all (fun c => c.cells.length == df.nrows && c.wellTyped)

/-- The numeric value of a cell, when it has one. -/
def Cell.toNumOpt : Cell → Option ℚ
  | .num q => some q
  | _ => none

/-- The non-null numeric values of a cell list (pandas `skipna`). -/
def nonNullNums (cells : List Cell) : List ℚ :=
  cells.filterMap Cell.toNumOpt

/-- `Series.mean()`.  pandas yields NaN on an empty series; the 0 returned
here (via `ℚ` division by zero) is only ever consumed behind guards that
NaN would also falsify. -/
def mean (xs : List ℚ) : ℚ :=
  xs.sum / (xs.length : ℚ)

/-- `Series.var()` / the square of `Series.std()`, with pandas' default
`ddof=1`.  For fewer than two values pandas yields NaN; returning 0 here
falsifies the same `> 0` guards. -/
def sampleVar (xs : List ℚ) : ℚ :=
  if 2 ≤ xs.length then
    (xs.map (fun x => (x - mean xs) ^ 2)).sum / ((xs.length : ℚ) - 1)
  else 0

/-- Insert into a sorted list (ascending). -/
def insertSorted (x : ℚ) : List ℚ → List ℚ
  | [] => [x]
  | y :: ys => if x ≤ y then x :: y :: ys else y :: insertSorted x ys

/-- Insertion sort, ascending. -/
def sortQ : List ℚ → List ℚ
  | [] => []
  | x :: xs => insertSorted x (sortQ xs)

/-- `Series.median()` over the non-null values: middle element of the
sorted list, or the average of the two middles for an even count.  pandas
yields NaN on an empty series; the 0 returned here is only used to fill a
fully-null column, which the zero-variance filter then drops exactly as
pandas drops the all-NaN column. -/
def median (xs : List ℚ) : ℚ :=
  let s := sortQ xs
  let n := s.length
  if n = 0 then 0
  else if n % 2 = 1 then s.getD (n / 2) 0
  else (s.getD (n / 2 - 1) 0 + s.getD (n / 2) 0) / 2

/-- `fillna(median)` on one column: every null cell becomes the column's
median over its non-null values; numeric cells pass through unchanged.
Index-preserving by construction (`List.map`). -/
def fillna (cells : List Cell) : List ℚ :=
  let m := median (nonNullNums cells)
  cells.map (fun c =>
    match c with
    | Cell.num q => q
    | _ => m)

/-- The numeric feature matrix derived from a Dataset: named rational
columns plus the row count the frame carries. -/
structure NumericMatrix where
  cols : List (String × List ℚ)
  nrows : ℕ
deriving DecidableEq, Repr

/-- `DataFrame.empty`: true when either axis has length 0. -/
def NumericMatrix.isEmpty (m : NumericMatrix) : Bool :=
  m.cols.isEmpty || m.nrows == 0

/-- One column of `df[numeric_cols].fillna(median)`. -/
def prepareColumn (c : Column) : String × List ℚ :=
  (c.name, fillna c.cells)

/-- `AnomalyDetector._prepare_numeric_data`: select the numeric-dtype
columns (an empty frame when none exist), impute nulls with the column
median, and drop the columns whose `var()` (ddof=1) is not `> 0`. -/
def _prepare_numeric_data (df : Dataset) : NumericMatrix :=
  let numericCols := df.cols.filter (fun c => c.dtype == Dtype.numeric)
  if numericCols.isEmpty then ⟨[], 0⟩
  else
    let filled := numericCols.map prepareColumn
    let kept := filled.filter (fun p => decide (0 < sampleVar p.2))
    ⟨kept, df.nrows⟩

/-- Number of `true` entries of a flag vector (`np.sum` of a boolean
array). -/
def countTrue (l : List Bool) : ℕ :=
  (l.filter id).length

/-- The per-detector result: flag per row and flagged count.  (The
`details` diagnostics dict is irrelevant to every claim and omitted.) -/
structure DetectorResult where
  flags : List Bool
  count : ℕ
deriving DecidableEq, Repr

/-- `AnomalyDetector._isolation_forest_detection`: the sklearn
`fit_predict` outcome arrives as `fitPredict` (`-1` = anomaly).  On
success the flags are `predictions == -1`; on any raised exception the
handler returns an all-false vector of the matrix's row count and count
0. -/
def _isolation_forest_detection (data : NumericMatrix)
    (fitPredict : Except String (List Int)) : DetectorResult :=
  match fitPredict with
  | .ok preds =>
      let flags := preds.map (fun p => decide (p = -1))
      ⟨flags, countTrue flags⟩
  | .error _ => ⟨List.replicate data.nrows false, 0⟩

/-- `AnomalyDetector._dbscan_detection`: the DBSCAN `fit_predict` cluster
labels arrive as `fitPredict` (`-1` = noise).  Same fail-soft handler as
the isolation forest. -/
def _dbscan_detection (data : NumericMatrix)
    (fitPredict : Except String (List Int)) : DetectorResult :=
  match fitPredict with
  | .ok labels =>
      let flags := labels.map (fun p => decide (p = -1))
      ⟨flags, countTrue flags⟩
  | .error _ => ⟨List.replicate data.nrows false, 0⟩

/-- The `results['summary']` dict of `detect_anomalies`. -/
structure AnomalySummary where
  total_rows : ℕ
  total_anomalies : ℕ
  anomaly_rate : ℚ
  numeric_columns_analyzed : List String
deriving DecidableEq, Repr

/-- The dict returned by `AnomalyDetector.detect_anomalies`: the two
per-method counts (`anomaly_counts`), the three flag columns of the
`anomaly_flags` frame, and the summary (`none` models the early return's
plain-string summary when no numeric data is available, where the flag
frame is the empty `pd.DataFrame()`). -/
structure AnomalyResults where
  isolation_count : ℕ
  dbscan_count : ℕ
  isolation_flags : List Bool
  dbscan_flags : List Bool
  combined_flags : List Bool
  summary : Option AnomalySummary
deriving DecidableEq, Repr

/-- `AnomalyDetector.detect_anomalies`: prepare the numeric matrix; if it
is empty return zero counts and empty flag columns; otherwise run both
fail-soft detectors, OR their flags row-wise into `combined_anomaly`, and
assemble the summary (`rate = total/len(df)`, 0 on an empty frame). -/
def detect_anomalies (df : Dataset)
    (ifCore dbCore : Except String (List Int)) : AnomalyResults :=
  let numeric := _prepare_numeric_data df
  if numeric.isEmpty then
    { isolation_count := 0, dbscan_count := 0,
      isolation_flags := [], dbscan_flags := [], combined_flags := [],
      summary := none }
  else
    let ifr := _isolation_forest_detection numeric ifCore
    let dbr := _dbscan_detection numeric dbCore
    let combined := List.zipWith (· || ·) ifr.flags dbr.flags
    { isolation_count := ifr.count, dbscan_count := dbr.count,
      isolation_flags := ifr.flags, dbscan_flags := dbr.flags,
      combined_flags := combined,
      summary := some
        { total_rows := df.nrows,
          total_anomalies := countTrue combined,
          anomaly_rate :=
            if 0 < df.nrows then (countTrue combined : ℚ) / (df.nrows : ℚ)
            else 0,
          numeric_columns_analyzed := numeric.cols.map Prod.fst } }

/-- One entry of the quality validator's `issues` list.  The Python dicts
carry different key sets per issue type; the optional fields are `none`
exactly when the corresponding key is absent from the dict. -/
structure QualityIssue where
  type : String
  column : String
  severity : String
  count : Option ℕ
  percentage : Option ℚ
  method : Option String
  threshold : Option ℕ
  current_type : Option String
  suggested_type : Option String
deriving DecidableEq, Repr

/-- `Series.isnull().sum()` for one column. -/
def nullCount (c : Column) : ℕ :=
  (c.cells.filter Cell.isNull).length

/-- `DataQualityValidator._check_missing_values`: per column, emit a
`missing_values` issue when the null count is positive, carrying the
count, `count/len(df)*100`, and severity high above 50%, medium above
10%, else low. -/
def _check_missing_values (df : Dataset) : List QualityIssue :=
  df.cols.filterMap (fun c =>
    let k := nullCount c
    let pct : ℚ := ((k : ℚ) / (df.nrows : ℚ)) * 100
    if 0 < k then
      some { type := "missing_values", column := c.name,
             severity :=
               if 50 < pct then "high"
               else if 10 < pct then "medium"
               else "low",
             count := some k, percentage := some pct,
             method := none, threshold := none,
             current_type := none, suggested_type := none }
    else none)

/-- Row `i` of the frame, as the list of its cells across columns
(out-of-range reads never occur on well-formed data). -/
def Dataset.row (df : Dataset) (i : ℕ) : List Cell :=
  df.cols.map (fun c => c.cells.getD i Cell.null)

/-- `DataFrame.duplicated().sum()`: the number of rows equal to some
earlier row (every occurrence after the first is marked).  pandas treats
NaN cells as equal for this test, as does `Cell.null = Cell.null`. -/
def duplicatedCount (df : Dataset) : ℕ :=
  ((List.range df.nrows).filter (fun i =>
    (List.range i).any (fun j => df.row j == df.row i))).length

/-- `DataQualityValidator._check_duplicates`: one dataset-wide
`duplicate_rows` issue when the duplicate count is positive, column field
the `all_columns` sentinel, severity medium above 5% else low. -/
def _check_duplicates (df : Dataset) : List QualityIssue :=
  let k := duplicatedCount df
  if 0 < k then
    let pct : ℚ := ((k : ℚ) / (df.nrows : ℚ)) * 100
    [{ type := "duplicate_rows", column := "all_columns",
       severity := if 5 < pct then "medium" else "low",
       count := some k, percentage := some pct,
       method := none, threshold := none,
       current_type := none, suggested_type := none }]
  else []

/-- `DataQualityValidator._check_data_types`: for each object-dtype
column, when `pd.to_numeric(column, errors='raise')` succeeds — i.e.
every non-null cell parses as numeric under the external parser
`parseNum` — emit a `data_type_mismatch` issue.  Note the emitted dict
has `current_type`/`suggested_type` keys but no `count` or `percentage`
key. -/
def _check_data_types (parseNum : String → Bool) (df : Dataset) :
    List QualityIssue :=
  df.cols.filterMap (fun c =>
    if c.dtype == Dtype.object then
      if c.cells.all (fun cell =>
          match cell with
          | Cell.str s => parseNum s
          | _ => true) then
        some { type := "data_type_mismatch", column := c.name,
               severity := "medium",
               count := none, percentage := none,
               method := none, threshold := none,
               current_type := some "object",
               suggested_type := some "numeric" }
      else none
    else none)

/-- `DataQualityValidator._check_outliers`: for each numeric column whose
`std()` is `> 0` (ddof=1 over the non-null values; the `0 < sampleVar`
guard is the exact `ℚ` rendering of `std > 0`), count the non-null cells
with `|z| > 3` — embedded as `(x-mean)^2 > 9*var` since `std = √var` —
and emit an `outliers` issue when the count is positive, with
`method="z_score"`, `threshold=3`, severity medium above 5% else low. -/
def _check_outliers (df : Dataset) : List QualityIssue :=
  df.cols.filterMap (fun c =>
    if c.dtype == Dtype.numeric then
      let xs := nonNullNums c.cells
      let m := mean xs
      let v := sampleVar xs
      if 0 < v then
        let k := (xs.filter (fun x => decide (9 * v < (x - m) ^ 2))).length
        if 0 < k then
          let pct : ℚ := ((k : ℚ) / (df.nrows : ℚ)) * 100
          some { type := "outliers", column := c.name,
                 severity := if 5 < pct then "medium" else "low",
                 count := some k, percentage := some pct,
                 method := some "z_score", threshold := some 3,
                 current_type := none, suggested_type := none }
        else none
      else none
    else none)

namespace DataQualityValidator

/-- `DataQualityValidator.validate`: the issue list is the concatenation
missing-values ++ duplicates ++ type-mismatches ++ outliers.  (The
summary dict it also builds is derivable and consumed nowhere the claims
reach.) -/
def validate (parseNum : String → Bool) (df : Dataset) : List QualityIssue :=
  _check_missing_values df ++ _check_duplicates df ++
    _check_data_types parseNum df ++ _check_outliers df

end DataQualityValidator

/-- The `results['summary']` dict of
`DataReliabilityPlatform.validate_data`. -/
structure ValidationSummary where
  total_rows : ℕ
  total_anomalies : ℕ
  total_quality_issues : ℕ
  anomaly_rate : ℚ
  validation_passed : Bool
deriving DecidableEq, Repr

/-- The dict `DataReliabilityPlatform.validate_data` returns on
success. -/
structure ValidationReport where
  anomalies : AnomalyResults
  quality_issues : List QualityIssue
  summary : ValidationSummary
deriving DecidableEq, Repr

/-- `DataReliabilityPlatform.validate_data`: the two branch calls
(`detect_anomalies`, `quality_validator.validate`) are passed as `Except`
values modelling their possibly-raising execution.  When either raises,
the orchestrator's handler re-raises `ValidationError("Validation
failed: " + cause)` and no report is produced; when both return, the
summary is assembled with `total_anomalies =
sum(anomaly_counts.values())` (isolation count + dbscan count),
`anomaly_rate = total_anomalies/len(df)` guarded to 0 on an empty frame,
and `validation_passed = (total_anomalies == 0 and total_quality_issues
== 0)`. -/
def validate_data (df : Dataset)
    (anomalyBranch : Except String AnomalyResults)
    (qualityBranch : Except String (List QualityIssue)) :
    Except String ValidationReport :=
  match anomalyBranch with
  | .error e => .error ("Validation failed: " ++ e)
  | .ok ar =>
    match qualityBranch with
    | .error e => .error ("Validation failed: " ++ e)
    | .ok issues =>
      let ta := ar.isolation_count + ar.dbscan_count
      .ok { anomalies := ar, quality_issues := issues,
            summary :=
              { total_rows := df.nrows,
                total_anomalies := ta,
                total_quality_issues := issues.length,
                anomaly_rate :=
                  if 0 < df.nrows then (ta : ℚ) / (df.nrows : ℚ) else 0,
                validation_passed :=
                  decide (ta = 0) && decide (issues.length = 0) } }

/-- An orchestrator run in which neither branch raises: both branch
values reach `validate_data` as successful returns. -/
def validate_run (df : Dataset) (c1 c2 : Except String (List Int))
    (pn : String → Bool) : Except String ValidationReport :=
  validate_data df (Except.ok (detect_anomalies df c1 c2))
    (Except.ok (DataQualityValidator.validate pn df))

/-- One entry of a row explanation's `anomaly_reasons` list.  The source
dict stores `normal_std` and `z_score` as floats; here `normal_var` is
the square of that std (`std = √normal_var`) and the `z > 2` / `z > 3`
comparisons appear as their exact squared forms, so the record determines
the same data without leaving `ℚ`. -/
structure AnomalyReason where
  column : String
  value : ℚ
  normal_mean : ℚ
  normal_var : ℚ
  severity : String
deriving DecidableEq, Repr

/-- One entry of the `anomaly_explanations` list. -/
structure RowExplanation where
  row_index : ℕ
  anomaly_reasons : List AnomalyReason
deriving DecidableEq, Repr

/-- The explainer's `summary` dict. -/
structure ExplainSummary where
  total_anomalies_explained : ℕ
  columns_analyzed : List String
deriving DecidableEq, Repr

/-- The dict `explain_anomalies` returns; `summary = none` models the
empty `{}` summary of the exception handler's return value. -/
structure ExplainResult where
  anomaly_explanations : List RowExplanation
  summary : Option ExplainSummary
deriving DecidableEq, Repr

/-- `normal_rows[col]`, skipna: the non-null values of column `c` on the
rows whose flag is false (`df[~anomaly_flags]` is positional row
selection, embedded as a zip with the flag vector). -/
def normalVals (c : Column) (flags : List Bool) : List ℚ :=
  nonNullNums ((c.cells.zip flags).filterMap (fun p =>
    if p.2 then none else some p.1))

/-- The body of the explainer's per-row, per-column loop: for the flagged
row `i` and numeric column `c`, compare the row's value against the mean
and std of the non-flagged rows.  `normal_std > 0` is `0 < sampleVar`;
`z_score > 2` is `(v-m)^2 > 4*var`; the severity test `z_score > 3` is
`(v-m)^2 > 9*var`.  A null value gives NaN comparisons in the source,
which are all false, hence no reason — embedded as the non-num fallback
case. -/
def reasonFor (flags : List Bool) (i : ℕ) (c : Column) :
    Option AnomalyReason :=
  match c.cells.getD i Cell.null with
  | Cell.num v =>
      let ns := normalVals c flags
      let m := mean ns
      let sv := sampleVar ns
      if 0 < sv then
        if 4 * sv < (v - m) ^ 2 then
          some { column := c.name, value := v, normal_mean := m,
                 normal_var := sv,
                 severity := if 9 * sv < (v - m) ^ 2 then "high"
                             else "medium" }
        else none
      else none
  | _ => none

/-- `df[anomaly_flags].head(top_n).iterrows()`: the indices of the rows
whose flag is true, in row order, truncated to the first `top_n`. -/
def flaggedRowIndices (flags : List Bool) (top_n : ℕ) : List ℕ :=
  ((flags.enum.filterMap (fun p => if p.2 then some p.1 else none)).take
    top_n)

/-- The body of `AnomalyDetector.explain_anomalies`'s `try` block: one
explanation per processed flagged row, whose reasons run over the
numeric-dtype columns of the original frame. -/
def explain_core (df : Dataset) (flags : List Bool) (top_n : ℕ) :
    ExplainResult :=
  let numericCols := df.cols.filter (fun c => c.dtype == Dtype.numeric)
  let explanations := (flaggedRowIndices flags top_n).map (fun i =>
    { row_index := i,
      anomaly_reasons := numericCols.filterMap (reasonFor flags i) })
  { anomaly_explanations := explanations,
    summary := some
      { total_anomalies_explained := explanations.length,
        columns_analyzed := numericCols.map Column.name } }

/-- `AnomalyDetector.explain_anomalies`: the whole body sits in a
`try/except`; `fault = some e` models an exception `e` raised inside the
`try` block, answered by the handler's `{'anomaly_explanations': [],
'summary': {}}` return — the exception is never re-raised. -/
def explain_anomalies (df : Dataset) (flags : List Bool) (top_n : ℕ)
    (fault : Option String) : ExplainResult :=
  match fault with
  | some _ => { anomaly_explanations := [], summary := none }
  | none => explain_core df flags top_n

/-!
Spec-side rendering of §4.5 (the explainer), written from the
specification's words rather than the source, for the refinement claim:
the reference population of a column is read off by row index over the
non-flagged rows, and the processed rows are the first `top_n` indices of
the frame whose flag is true.
-/

/-- The non-null values a column takes on the non-flagged rows, gathered
by row index (the spec's reference population: "the mean and standard
deviation of the non-flagged rows only"). -/
def specNormalVals (df : Dataset) (flags : List Bool) (c : Column) :
    List ℚ :=
  (List.range df.nrows).filterMap (fun i =>
    if flags.getD i false then none
    else (c.cells.getD i Cell.null).toNumOpt)

/-- Spec-side reason judgement for flagged row `i` and numeric column
`c`: report the column when the absolute z-score against the non-flagged
population exceeds 2 (squared form `4·var < (value-mean)²`, as
`std = √var`), severity high when it exceeds 3, and skip the column when
that population's standard deviation is not positive. -/
def specReason (df : Dataset) (flags : List Bool) (i : ℕ) (c : Column) :
    Option AnomalyReason :=
  match c.cells.getD i Cell.null with
  | Cell.num v =>
      let ns := specNormalVals df flags c
      let m := mean ns
      let sv := sampleVar ns
      if 0 < sv then
        if 4 * sv < (v - m) ^ 2 then
          some { column := c.name, value := v, normal_mean := m,
                 normal_var := sv,
                 severity := if 9 * sv < (v - m) ^ 2 then "high"
                             else "medium" }
        else none
      else none
  | _ => none

/-- The explainer as §4.5 words it: process only the first `top_n`
flagged row indices in row order; each explanation's reasons run over the
numeric columns under `specReason`. -/
def explainSpec (df : Dataset) (flags : List Bool) (top_n : ℕ) :
    ExplainResult :=
  let numericCols := df.cols.filter (fun c => c.dtype == Dtype.numeric)
  let rows :=
    ((List.range df.nrows).filter (fun i => flags.getD i false)).take top_n
  let explanations := rows.map (fun i =>
    { row_index := i,
      anomaly_reasons := numericCols.filterMap (specReason df flags i) })
  { anomaly_explanations := explanations,
    summary := some
      { total_anomalies_explained := explanations.length,
        columns_analyzed := numericCols.map Column.name } }

/-!
Concrete frames used by witnesses and counterexamples.
-/

/-- One numeric column `x = [0, 1, 2]`; variance 1, so the column
survives preparation. -/
def dfNum3 : Dataset :=
  ⟨[⟨"x", Dtype.numeric, [Cell.num 0, Cell.num 1, Cell.num 2]⟩]⟩

/-- One object column with a single row: no numeric columns at all. -/
def dfText1 : Dataset :=
  ⟨[⟨"t", Dtype.object, [Cell.str "a"]⟩]⟩

/-- One object column whose sole cell is the digit string "1". -/
def dfParse1 : Dataset :=
  ⟨[⟨"s", Dtype.object, [Cell.str "1"]⟩]⟩

/-- A zero-row frame with one (numeric) column. -/
def dfEmpty : Dataset :=
  ⟨[⟨"x", Dtype.numeric, []⟩]⟩

/-- A numeric column with one far-off row, plus flags marking that row:
used to exercise the explainer. -/
def dfExplain : Dataset :=
  ⟨[⟨"x", Dtype.numeric,
     [Cell.num 100, Cell.num 0, Cell.num 1, Cell.num 2]⟩]⟩

/-- Flags marking only the first row of `dfExplain`. -/
def flagsExplain : List Bool := [true, false, false, false]

/-- `pd.to_numeric` succeeding on every string it is shown (its true
behaviour on the digit strings of `dfParse1`). -/
def parseAll : String → Bool := fun _ => true

/-- A full validation run on `dfNum3` where both detectors flag exactly
row 0 (each sklearn fit labels the rows `[-1, 1, 1]`). -/
def c1run : Except String ValidationReport :=
  validate_run dfNum3 (Except.ok [-1, 1, 1]) (Except.ok [-1, 1, 1])
    parseAll

/-- The issue `_check_data_types` emits for the column of `dfParse1`. -/
def dtypeIssue1 : QualityIssue :=
  { type := "data_type_mismatch", column := "s", severity := "medium",
    count := none, percentage := none, method := none, threshold := none,
    current_type := some "object", suggested_type := some "numeric" }

/-!
Helper lemmas.
-/

lemma fillna_length (cells : List Cell) :
    (fillna cells).length = cells.length := by
  simp [fillna]

lemma countTrue_nil : countTrue [] = 0 := rfl

lemma countTrue_replicate_false (n : ℕ) :
    countTrue (List.replicate n false) = 0 := by
  induction n with
  | zero => rfl
  | succ n ih => simp [countTrue, List.replicate_succ, List.filter_cons,
      ih]

lemma countTrue_eq_zero {l : List Bool} :
    countTrue l = 0 ↔ ∀ b ∈ l, b = false := by
  simp [countTrue, List.length_eq_zero, List.filter_eq_nil_iff]

lemma countTrue_zipWith_or_eq_zero :
    ∀ (a b : List Bool), a.length = b.length →
      (countTrue (List.zipWith (· || ·) a b) = 0 ↔
        countTrue a = 0 ∧ countTrue b = 0)
  | [], [], _ => by simp [countTrue_nil]
  | [], _ :: _, h => by simp at h
  | _ :: _, [], h => by simp at h
  | x :: xs, y :: ys, h => by
      have ih := countTrue_zipWith_or_eq_zero xs ys (by simpa using h)
      simp only [List.zipWith_cons_cons, countTrue_eq_zero,
        List.mem_cons, forall_eq_or_imp, Bool.or_eq_false_iff] at *
      constructor
      · rintro ⟨⟨hx, hy⟩, hrest⟩
        exact ⟨⟨hx, (ih.mp hrest).1⟩, hy, (ih.mp hrest).2⟩
      · rintro ⟨⟨hx, hxs⟩, hy, hys⟩
        exact ⟨⟨hx, hy⟩, ih.mpr ⟨hxs, hys⟩⟩

lemma getD_zipWith_or :
    ∀ (a b : List Bool), a.length = b.length → ∀ (i : ℕ),
      (List.zipWith (· || ·) a b).getD i false =
        (a.getD i false || b.getD i false)
  | [], [], _, i => by simp
  | [], _ :: _, h, _ => by simp at h
  | _ :: _, [], h, _ => by simp at h
  | x :: xs, y :: ys, h, i => by
      cases i with
      | zero => simp
      | succ n =>
          simpa using getD_zipWith_or xs ys (by simpa using h) n

lemma wf_col_length {df : Dataset} (h : df.wf = true) :
    ∀ c ∈ df.cols, c.cells.length = df.nrows := by
  intro c hc
  have hall := List.all_eq_true.mp h c hc
  simp only [Bool.and_eq_true, beq_iff_eq] at hall
  exact hall.1

lemma prepare_nrows_of_numeric {df : Dataset}
    (h : df.cols.filter (fun c => c.dtype == Dtype.numeric) ≠ []) :
    (_prepare_numeric_data df).nrows = df.nrows := by
  unfold _prepare_numeric_data
  simp [List.isEmpty_iff, h]

lemma prepare_isEmpty_false {df : Dataset}
    (h : (_prepare_numeric_data df).isEmpty = false) :
    df.cols.filter (fun c => c.dtype == Dtype.numeric) ≠ [] := by
  intro hnil
  rw [_prepare_numeric_data.eq_def] at h
  simp [hnil, NumericMatrix.isEmpty] at h

lemma prepare_nrows_of_not_empty {df : Dataset}
    (h : (_prepare_numeric_data df).isEmpty = false) :
    (_prepare_numeric_data df).nrows = df.nrows :=
  prepare_nrows_of_numeric (prepare_isEmpty_false h)

lemma prepare_isEmpty_of_nrows_zero {df : Dataset} (h : df.nrows = 0) :
    (_prepare_numeric_data df).isEmpty = true := by
  rw [_prepare_numeric_data.eq_def]
  by_cases hnil : df.cols.filter (fun c => c.dtype == Dtype.numeric) = []
  · simp [hnil, NumericMatrix.isEmpty]
  · simp [List.isEmpty_iff, hnil, NumericMatrix.isEmpty, h]

lemma zip_range_filterMap_flagged (flags : List Bool) :
    ((List.range flags.length).zip flags).filterMap
      (fun p => if p.2 then some p.1 else none) =
      (List.range flags.length).filter (fun i => flags.getD i false) := by
  induction flags with
  | nil => rfl
  | cons b bs ih =>
    rw [List.length_cons, List.range_succ_eq_map, List.zip_cons_cons]
    have hzip : (List.map Nat.succ (List.range bs.length)).zip bs =
        ((List.range bs.length).zip bs).map (Prod.map Nat.succ id) := by
      rw [List.zip_map_left]
    have hmask : (fun p : ℕ × Bool => if p.2 then some p.1 else none) ∘
        Prod.map Nat.succ id =
        fun p : ℕ × Bool => Option.map Nat.succ
          (if p.2 then some p.1 else none) := by
      funext p
      cases p with
      | mk i b => cases b <;> simp [Prod.map]
    have htail : ((List.map Nat.succ (List.range bs.length)).zip bs).filterMap
        (fun p => if p.2 then some p.1 else none) =
        List.map Nat.succ (((List.range bs.length).zip bs).filterMap
          (fun p => if p.2 then some p.1 else none)) := by
      rw [hzip, List.filterMap_map, hmask, ← List.map_filterMap]
    have hfil : List.filter (fun i => (b :: bs).getD i false)
        (List.map Nat.succ (List.range bs.length)) =
        List.map Nat.succ (List.filter (fun i => bs.getD i false)
          (List.range bs.length)) := by
      rw [List.filter_map]
      rfl
    cases b with
    | false =>
        rw [List.filterMap_cons_none (by simp), List.filter_cons,
          if_neg (by simp), htail, ih, hfil]
    | true =>
        rw [List.filterMap_cons_some (b := 0) (by simp), List.filter_cons,
          if_pos (by simp), htail, ih, hfil]

lemma flaggedRowIndices_eq_spec (flags : List Bool) (top_n : ℕ) :
    flaggedRowIndices flags top_n =
      ((List.range flags.length).filter
        (fun i => flags.getD i false)).take top_n := by
  rw [flaggedRowIndices, List.enum_eq_zip_range, zip_range_filterMap_flagged]

lemma nonNull_mask_eq_spec :
    ∀ (cells : List Cell) (flags : List Bool),
      cells.length = flags.length →
      List.filterMap Cell.toNumOpt
          ((cells.zip flags).filterMap (fun p =>
            if p.2 then none else some p.1)) =
        (List.range cells.length).filterMap (fun i =>
          if flags.getD i false then none
          else (cells.getD i Cell.null).toNumOpt)
  | [], [], _ => rfl
  | [], _ :: _, h => by simp at h
  | _ :: _, [], h => by simp at h
  | c :: cs, b :: bs, h => by
      have ih := nonNull_mask_eq_spec cs bs (by simpa using h)
      rw [List.length_cons, List.range_succ_eq_map, List.zip_cons_cons]
      have htail : List.filterMap (fun i =>
          if (b :: bs).getD i false then none
          else ((c :: cs).getD i Cell.null).toNumOpt)
          (List.map Nat.succ (List.range cs.length)) =
          List.filterMap (fun i =>
            if bs.getD i false then none
            else (cs.getD i Cell.null).toNumOpt)
          (List.range cs.length) := by
        rw [List.filterMap_map]
        rfl
      cases b with
      | true =>
          rw [List.filterMap_cons_none (by simp),
            List.filterMap_cons_none (by simp), ih, htail]
      | false =>
          rw [List.filterMap_cons_some (b := c) (by simp)]
          cases c with
          | num q =>
              rw [List.filterMap_cons_some (f := Cell.toNumOpt)
                  (a := Cell.num q) (b := q) rfl,
                List.filterMap_cons_some (b := q)
                  (by simp [Cell.toNumOpt]), ih, htail]
          | str s =>
              rw [List.filterMap_cons_none (f := Cell.toNumOpt)
                  (a := Cell.str s) rfl,
                List.filterMap_cons_none (by simp [Cell.toNumOpt]),
                ih, htail]
          | null =>
              rw [List.filterMap_cons_none (f := Cell.toNumOpt)
                  (a := Cell.null) rfl,
                List.filterMap_cons_none (by simp [Cell.toNumOpt]),
                ih, htail]

lemma normalVals_eq_spec {df : Dataset} {flags : List Bool} {c : Column}
    (hc : c.cells.length = df.nrows) (hf : flags.length = df.nrows) :
    normalVals c flags = specNormalVals df flags c := by
  rw [normalVals, specNormalVals, nonNullNums,
    nonNull_mask_eq_spec c.cells flags (by rw [hc, hf]), hc]

lemma reasonFor_eq_spec {df : Dataset} {flags : List Bool} {c : Column}
    (hc : c.cells.length = df.nrows) (hf : flags.length = df.nrows)
    (i : ℕ) :
    reasonFor flags i c = specReason df flags i c := by
  rw [reasonFor, specReason, normalVals_eq_spec hc hf]

lemma mem_check_missing_shape {df : Dataset} {i : QualityIssue}
    (h : i ∈ _check_missing_values df) :
    i.type = "missing_values" ∧
      (i.severity = "low" ∨ i.severity = "medium" ∨ i.severity = "high") ∧
      i.count.isSome = true ∧ i.percentage.isSome = true := by
  rw [_check_missing_values, List.mem_filterMap] at h
  obtain ⟨c, -, hc⟩ := h
  dsimp only at hc
  split at hc
  · cases hc
    refine ⟨rfl, ?_, rfl, rfl⟩
    dsimp only
    split
    · right; right; rfl
    · split
      · right; left; rfl
      · left; rfl
  · cases hc

lemma mem_check_duplicates_shape {df : Dataset} {i : QualityIssue}
    (h : i ∈ _check_duplicates df) :
    i.type = "duplicate_rows" ∧ i.column = "all_columns" ∧
      (i.severity = "low" ∨ i.severity = "medium" ∨ i.severity = "high") ∧
      i.count.isSome = true ∧ i.percentage.isSome = true := by
  rw [_check_duplicates] at h
  dsimp only at h
  split at h
  · rw [List.mem_singleton] at h
    subst h
    refine ⟨rfl, rfl, ?_, rfl, rfl⟩
    dsimp only
    split
    · right; left; rfl
    · left; rfl
  · cases h

lemma mem_check_data_types_shape {parseNum : String → Bool} {df : Dataset}
    {i : QualityIssue} (h : i ∈ _check_data_types parseNum df) :
    i.type = "data_type_mismatch" ∧ i.severity = "medium" ∧
      i.count = none ∧ i.percentage = none ∧
      i.current_type = some "object" ∧ i.suggested_type = some "numeric" := by
  rw [_check_data_types, List.mem_filterMap] at h
  obtain ⟨c, -, hc⟩ := h
  split at hc
  · split at hc
    · cases hc
      exact ⟨rfl, rfl, rfl, rfl, rfl, rfl⟩
    · cases hc
  · cases hc

lemma mem_check_outliers_shape {df : Dataset} {i : QualityIssue}
    (h : i ∈ _check_outliers df) :
    i.type = "outliers" ∧
      (i.severity = "low" ∨ i.severity = "medium" ∨ i.severity = "high") ∧
      i.count.isSome = true ∧ i.percentage.isSome = true ∧
      i.method = some "z_score" ∧ i.threshold = some 3 := by
  rw [_check_outliers, List.mem_filterMap] at h
  obtain ⟨c, -, hc⟩ := h
  dsimp only at hc
  split at hc
  · split at hc
    · split at hc
      · cases hc
        refine ⟨rfl, ?_, rfl, rfl, rfl, rfl⟩
        dsimp only
        split
        · right; left; rfl
        · left; rfl
      · cases hc
    · cases hc
  · cases hc

lemma filter_missing_self (df : Dataset) :
    (_check_missing_values df).filter
      (fun i => i.type == "missing_values") = _check_missing_values df := by
  rw [List.filter_eq_self]
  intro i hi
  rw [(mem_check_missing_shape hi).1]
  decide

lemma filter_missing_dup (df : Dataset) :
    (_check_duplicates df).filter
      (fun i => i.type == "missing_values") = [] := by
  rw [List.filter_eq_nil_iff]
  intro i hi
  rw [(mem_check_duplicates_shape hi).1]
  decide

lemma filter_missing_dtype (parseNum : String → Bool) (df : Dataset) :
    (_check_data_types parseNum df).filter
      (fun i => i.type == "missing_values") = [] := by
  rw [List.filter_eq_nil_iff]
  intro i hi
  rw [(mem_check_data_types_shape hi).1]
  decide

lemma filter_missing_outliers (df : Dataset) :
    (_check_outliers df).filter
      (fun i => i.type == "missing_values") = [] := by
  rw [List.filter_eq_nil_iff]
  intro i hi
  rw [(mem_check_outliers_shape hi).1]
  decide

lemma isolation_count_eq (data : NumericMatrix)
    (fp : Except String (List Int)) :
    (_isolation_forest_detection data fp).count =
      countTrue (_isolation_forest_detection data fp).flags := by
  cases fp with
  | ok l => rfl
  | error e => simp [_isolation_forest_detection, countTrue_replicate_false]

lemma dbscan_count_eq (data : NumericMatrix)
    (fp : Except String (List Int)) :
    (_dbscan_detection data fp).count =
      countTrue (_dbscan_detection data fp).flags := by
  cases fp with
  | ok l => rfl
  | error e => simp [_dbscan_detection, countTrue_replicate_false]

lemma isolation_flags_length (data : NumericMatrix)
    (fp : Except String (List Int))
    (h : ∀ l, fp = Except.ok l → l.length = data.nrows) :
    (_isolation_forest_detection data fp).flags.length = data.nrows := by
  cases fp with
  | ok l => simpa [_isolation_forest_detection] using h l rfl
  | error e => simp [_isolation_forest_detection]

lemma dbscan_flags_length (data : NumericMatrix)
    (fp : Except String (List Int))
    (h : ∀ l, fp = Except.ok l → l.length = data.nrows) :
    (_dbscan_detection data fp).flags.length = data.nrows := by
  cases fp with
  | ok l => simpa [_dbscan_detection] using h l rfl
  | error e => simp [_dbscan_detection]

lemma detect_eq_empty {df : Dataset} (c1 c2 : Except String (List Int))
    (hE : (_prepare_numeric_data df).isEmpty = true) :
    detect_anomalies df c1 c2 =
      { isolation_count := 0, dbscan_count := 0,
        isolation_flags := [], dbscan_flags := [], combined_flags := [],
        summary := none } := by
  rw [detect_anomalies]
  simp [hE]

lemma detect_eq_nonempty {df : Dataset} (c1 c2 : Except String (List Int))
    (hE : (_prepare_numeric_data df).isEmpty = false) :
    detect_anomalies df c1 c2 =
      { isolation_count :=
          (_isolation_forest_detection (_prepare_numeric_data df) c1).count,
        dbscan_count :=
          (_dbscan_detection (_prepare_numeric_data df) c2).count,
        isolation_flags :=
          (_isolation_forest_detection (_prepare_numeric_data df) c1).flags,
        dbscan_flags :=
          (_dbscan_detection (_prepare_numeric_data df) c2).flags,
        combined_flags := List.zipWith (· || ·)
          (_isolation_forest_detection (_prepare_numeric_data df) c1).flags
          (_dbscan_detection (_prepare_numeric_data df) c2).flags,
        summary := some
          { total_rows := df.nrows,
            total_anomalies := countTrue (List.zipWith (· || ·)
              (_isolation_forest_detection
                (_prepare_numeric_data df) c1).flags
              (_dbscan_detection (_prepare_numeric_data df) c2).flags),
            anomaly_rate :=
              if 0 < df.nrows then
                (countTrue (List.zipWith (· || ·)
                  (_isolation_forest_detection
                    (_prepare_numeric_data df) c1).flags
                  (_dbscan_detection
                    (_prepare_numeric_data df) c2).flags) : ℚ) /
                  (df.nrows : ℚ)
              else 0,
            numeric_columns_analyzed :=
              (_prepare_numeric_data df).cols.map Prod.fst } } := by
  rw [detect_anomalies]
  simp [hE]

/-!
Claim theorems.
-/

/-- C7: when the sklearn fit inside either detector raises, the fail-soft
handler returns a flag vector that is all false, of length equal to the
matrix's row count, with count 0.  The failure is never propagated to the
caller: both wrappers are total functions of the modelled fit outcome, so
every raised exception `e`/`e'` is answered by this degraded result. -/
theorem C7_detectors_fail_soft (data : NumericMatrix) (e e' : String) :
    (_isolation_forest_detection data (Except.error e)).flags =
        List.replicate data.nrows false ∧
      (_isolation_forest_detection data (Except.error e)).count = 0 ∧
      (_isolation_forest_detection data (Except.error e)).flags.length =
        data.nrows ∧
      (_dbscan_detection data (Except.error e')).flags =
        List.replicate data.nrows false ∧
      (_dbscan_detection data (Except.error e')).count = 0 ∧
      (_dbscan_detection data (Except.error e')).flags.length =
        data.nrows := by
  refine ⟨rfl, rfl, ?_, rfl, rfl, ?_⟩ <;>
    simp [_isolation_forest_detection, _dbscan_detection]

/-- C10: the explainer's `try/except` swallows every internal exception
and returns an empty explanation list and an empty summary; nothing is
re-raised (the function is total). -/
theorem C10_explainer_fail_soft (df : Dataset) (flags : List Bool)
    (top_n : ℕ) (e : String) :
    explain_anomalies df flags top_n (some e) =
      { anomaly_explanations := [], summary := none } := rfl

/-- C8: if an exception escapes the anomaly branch or the quality branch,
`validate_data` raises a single `ValidationError` carrying the
originating cause and returns no partial report; when both branches
return, it returns a complete report assembled from them. -/
theorem C8_orchestrator_fail_fast (df : Dataset)
    (ab : Except String AnomalyResults)
    (qb : Except String (List QualityIssue)) :
    (∀ e, ab = Except.error e →
      validate_data df ab qb =
        Except.error ("Validation failed: " ++ e)) ∧
    (∀ a e, ab = Except.ok a → qb = Except.error e →
      validate_data df ab qb =
        Except.error ("Validation failed: " ++ e)) ∧
    (∀ a q, ab = Except.ok a → qb = Except.ok q →
      ∃ rep, validate_data df ab qb = Except.ok rep ∧
        rep.anomalies = a ∧ rep.quality_issues = q ∧
        rep.summary.total_rows = df.nrows ∧
        rep.summary.total_quality_issues = q.length) := by
  refine ⟨?_, ?_, ?_⟩
  · rintro e rfl
    rfl
  · rintro a e rfl rfl
    rfl
  · rintro a q rfl rfl
    exact ⟨_, rfl, rfl, rfl, rfl, rfl⟩

/-- Witness for C8 at a concrete failing anomaly branch. -/
theorem C8_orchestrator_fail_fast_witness :
    validate_data dfNum3 (Except.error "numeric failure")
        (Except.ok []) =
      Except.error ("Validation failed: " ++ "numeric failure") :=
  (C8_orchestrator_fail_fast dfNum3 (Except.error "numeric failure")
    (Except.ok [])).1 "numeric failure" rfl

/-- C2 counterexample: on a one-row dataset with no numeric column, the
prepared matrix has 0 rows (the input has 1) and the flag frame of the
early return is empty, so neither "the matrix row count always equals the
input's" nor "the flag vector length always equals the row count"
holds. -/
theorem C2_counterexample :
    dfText1.nrows = 1 ∧
      ¬ (_prepare_numeric_data dfText1).nrows = dfText1.nrows ∧
      ¬ (detect_anomalies dfText1 (Except.ok [])
          (Except.ok [])).combined_flags.length = dfText1.nrows := by
  decide

/-- C2 amended: when the dataset has at least one numeric column,
preparation preserves the row count and each output column is the
index-aligned median-imputation of an input numeric column (so row order
is preserved; no row is dropped); when the prepared matrix is nonempty
the three flag vectors all have length equal to the row count; when it is
empty the flag frame is empty. -/
theorem C2_amended (df : Dataset) (c1 c2 : Except String (List Int))
    (hwf : df.wf = true)
    (h1 : ∀ l, c1 = Except.ok l → l.length = df.nrows)
    (h2 : ∀ l, c2 = Except.ok l → l.length = df.nrows) :
    (df.cols.filter (fun c => c.dtype == Dtype.numeric) ≠ [] →
      (_prepare_numeric_data df).nrows = df.nrows ∧
      ∀ p ∈ (_prepare_numeric_data df).cols,
        p.2.length = df.nrows ∧
        ∃ c ∈ df.cols, c.dtype = Dtype.numeric ∧ p = prepareColumn c) ∧
    ((_prepare_numeric_data df).isEmpty = false →
      (detect_anomalies df c1 c2).isolation_flags.length = df.nrows ∧
      (detect_anomalies df c1 c2).dbscan_flags.length = df.nrows ∧
      (detect_anomalies df c1 c2).combined_flags.length = df.nrows) ∧
    ((_prepare_numeric_data df).isEmpty = true →
      (detect_anomalies df c1 c2).combined_flags = []) := by
  refine ⟨?_, ?_, ?_⟩
  · intro hnum
    refine ⟨prepare_nrows_of_numeric hnum, ?_⟩
    intro p hp
    rw [_prepare_numeric_data] at hp
    rw [if_neg (by simpa [List.isEmpty_iff] using hnum)] at hp
    simp only [List.mem_filter, List.mem_map] at hp
    obtain ⟨⟨c, hc, hcp⟩, -⟩ := hp
    have hcd : c.dtype = Dtype.numeric := by
      simpa using hc.2
    have hcl : c.cells.length = df.nrows :=
      wf_col_length hwf c hc.1
    refine ⟨?_, c, hc.1, hcd, hcp.symm⟩
    rw [← hcp]
    simpa [prepareColumn, fillna_length] using hcl
  · intro hE
    rw [detect_eq_nonempty c1 c2 hE]
    have hn := prepare_nrows_of_not_empty hE
    have hi := isolation_flags_length (_prepare_numeric_data df) c1
      (fun l hl => by rw [hn]; exact h1 l hl)
    have hd := dbscan_flags_length (_prepare_numeric_data df) c2
      (fun l hl => by rw [hn]; exact h2 l hl)
    rw [hn] at hi hd
    refine ⟨hi, hd, ?_⟩
    simp only [List.length_zipWith, hi, hd, min_self]
  · intro hE
    rw [detect_eq_empty c1 c2 hE]

/-- Concrete evaluation: preparing `dfNum3` keeps its single column. -/
lemma prep_dfNum3 : _prepare_numeric_data dfNum3 =
    ⟨[("x", [0, 1, 2])], 3⟩ := by
  norm_num [_prepare_numeric_data, dfNum3, prepareColumn, fillna, median,
    nonNullNums, sortQ, insertSorted, sampleVar, mean, Dataset.nrows,
    Cell.toNumOpt, List.filter_cons]

lemma prep_dfNum3_isEmpty : (_prepare_numeric_data dfNum3).isEmpty = false := by
  rw [prep_dfNum3]
  rfl

/-- Witness for C2 amended at `dfNum3` with both detectors labelling
`[-1, 1, 1]`. -/
theorem C2_amended_witness :
    (detect_anomalies dfNum3 (Except.ok [-1, 1, 1])
        (Except.ok [-1, 1, 1])).combined_flags.length = dfNum3.nrows :=
  ((C2_amended dfNum3 (Except.ok [-1, 1, 1]) (Except.ok [-1, 1, 1])
      (by decide)
      (fun l hl => by injection hl with h; rw [← h]; decide)
      (fun l hl => by injection hl with h; rw [← h]; decide)).2.1
    prep_dfNum3_isEmpty).2.2

/-- C6 counterexample: the `data_type_mismatch` issue emitted for
`dfParse1` has no count and no percentage field, so "every QualityIssue
has a count field and a percentage field" fails. -/
theorem C6_counterexample :
    DataQualityValidator.validate parseAll dfParse1 = [dtypeIssue1] ∧
      dtypeIssue1.count = none ∧ dtypeIssue1.percentage = none := by
  decide

/-- C6 amended: every issue the quality engine returns has a type among
the four rule names, a column field, and a severity in low/medium/high;
the missing-values, duplicate-rows and outliers issues carry count and
percentage fields, while `data_type_mismatch` issues carry
`current_type`/`suggested_type` instead of count/percentage. -/
theorem C6_amended (parseNum : String → Bool) (df : Dataset) :
    ∀ i ∈ DataQualityValidator.validate parseNum df,
      (i.type = "missing_values" ∨ i.type = "duplicate_rows" ∨
        i.type = "data_type_mismatch" ∨ i.type = "outliers") ∧
      (i.severity = "low" ∨ i.severity = "medium" ∨
        i.severity = "high") ∧
      (i.type ≠ "data_type_mismatch" →
        i.count.isSome = true ∧ i.percentage.isSome = true) ∧
      (i.type = "data_type_mismatch" →
        i.count = none ∧ i.percentage = none ∧
        i.current_type = some "object" ∧
        i.suggested_type = some "numeric") := by
  intro i hi
  rw [DataQualityValidator.validate] at hi
  simp only [List.mem_append] at hi
  rcases hi with ((hm | hd) | ht) | ho
  · obtain ⟨h1, h2, h3, h4⟩ := mem_check_missing_shape hm
    refine ⟨Or.inl h1, h2, fun _ => ⟨h3, h4⟩, fun hc => ?_⟩
    rw [h1] at hc
    exact absurd hc (by decide)
  · obtain ⟨h1, -, h2, h3, h4⟩ := mem_check_duplicates_shape hd
    refine ⟨Or.inr (Or.inl h1), h2, fun _ => ⟨h3, h4⟩, fun hc => ?_⟩
    rw [h1] at hc
    exact absurd hc (by decide)
  · obtain ⟨h1, h2, h3, h4, h5, h6⟩ := mem_check_data_types_shape ht
    exact ⟨Or.inr (Or.inr (Or.inl h1)), Or.inr (Or.inl h2),
      fun hne => absurd h1 hne, fun _ => ⟨h3, h4, h5, h6⟩⟩
  · obtain ⟨h1, h2, h3, h4, -, -⟩ := mem_check_outliers_shape ho
    refine ⟨Or.inr (Or.inr (Or.inr h1)), h2, fun _ => ⟨h3, h4⟩,
      fun hc => ?_⟩
    rw [h1] at hc
    exact absurd hc (by decide)

/-- Witness for C6 amended at the issue of `dfParse1`. -/
theorem C6_amended_witness :
    (dtypeIssue1.type = "missing_values" ∨
        dtypeIssue1.type = "duplicate_rows" ∨
        dtypeIssue1.type = "data_type_mismatch" ∨
        dtypeIssue1.type = "outliers") ∧
      (dtypeIssue1.severity = "low" ∨ dtypeIssue1.severity = "medium" ∨
        dtypeIssue1.severity = "high") ∧
      (dtypeIssue1.type ≠ "data_type_mismatch" →
        dtypeIssue1.count.isSome = true ∧
          dtypeIssue1.percentage.isSome = true) ∧
      (dtypeIssue1.type = "data_type_mismatch" →
        dtypeIssue1.count = none ∧ dtypeIssue1.percentage = none ∧
        dtypeIssue1.current_type = some "object" ∧
        dtypeIssue1.suggested_type = some "numeric") :=
  C6_amended parseAll dfParse1 dtypeIssue1 (by decide)

/-- C5: the quality engine emits a `missing_values` issue for a column
iff the column's null count exceeds 0, and it carries count = the null
count, percentage = count/row_count·100, and severity high above 50%,
medium above 10%, else low — stated as: the `missing_values` issues of a
full `validate` run are exactly the per-column emissions of that rule, in
column order. -/
theorem C5_missing_value_rule (parseNum : String → Bool) (df : Dataset) :
    (DataQualityValidator.validate parseNum df).filter
        (fun i => i.type == "missing_values") =
      df.cols.filterMap (fun c =>
        if 0 < nullCount c then
          some { type := "missing_values", column := c.name,
                 severity :=
                   if 50 < ((nullCount c : ℚ) / (df.nrows : ℚ)) * 100 then
                     "high"
                   else if 10 < ((nullCount c : ℚ) / (df.nrows : ℚ)) * 100
                     then "medium"
                   else "low",
                 count := some (nullCount c),
                 percentage :=
                   some (((nullCount c : ℚ) / (df.nrows : ℚ)) * 100),
                 method := none, threshold := none,
                 current_type := none, suggested_type := none }
        else none) := by
  rw [DataQualityValidator.validate, List.filter_append,
    List.filter_append, List.filter_append, filter_missing_self,
    filter_missing_dup, filter_missing_dtype, filter_missing_outliers,
    List.append_nil, List.append_nil, List.append_nil]
  rfl

/-- C3: on a dataset whose prepared matrix is nonempty (at least one
numeric column kept and at least one row), the combined per-row flag at
every row index is the logical OR of the isolation-forest flag and the
DBSCAN flag at that index. -/
theorem C3_union_law (df : Dataset) (c1 c2 : Except String (List Int))
    (h1 : ∀ l, c1 = Except.ok l → l.length = df.nrows)
    (h2 : ∀ l, c2 = Except.ok l → l.length = df.nrows)
    (_hkept : (_prepare_numeric_data df).cols ≠ [])
    (i : ℕ) (_hi : i < df.nrows) :
    (detect_anomalies df c1 c2).combined_flags.getD i false =
      ((detect_anomalies df c1 c2).isolation_flags.getD i false ||
        (detect_anomalies df c1 c2).dbscan_flags.getD i false) := by
  cases hE : (_prepare_numeric_data df).isEmpty with
  | true =>
      rw [detect_eq_empty c1 c2 hE]
      simp
  | false =>
      rw [detect_eq_nonempty c1 c2 hE]
      have hn := prepare_nrows_of_not_empty hE
      have hil := isolation_flags_length (_prepare_numeric_data df) c1
        (fun l hl => by rw [hn]; exact h1 l hl)
      have hdl := dbscan_flags_length (_prepare_numeric_data df) c2
        (fun l hl => by rw [hn]; exact h2 l hl)
      exact getD_zipWith_or _ _ (by rw [hil, hdl]) i

/-- Witness for C3 on `dfNum3`, isolation flagging row 0 and DBSCAN
flagging row 1, at row index 0. -/
theorem C3_union_law_witness :
    (detect_anomalies dfNum3 (Except.ok [-1, 1, 1])
        (Except.ok [1, -1, 1])).combined_flags.getD 0 false =
      ((detect_anomalies dfNum3 (Except.ok [-1, 1, 1])
          (Except.ok [1, -1, 1])).isolation_flags.getD 0 false ||
        (detect_anomalies dfNum3 (Except.ok [-1, 1, 1])
          (Except.ok [1, -1, 1])).dbscan_flags.getD 0 false) :=
  C3_union_law dfNum3 (Except.ok [-1, 1, 1]) (Except.ok [1, -1, 1])
    (fun l hl => by injection hl with h; rw [← h]; decide)
    (fun l hl => by injection hl with h; rw [← h]; decide)
    (by rw [prep_dfNum3]; exact fun h => List.noConfusion h) 0 (by decide)

/-- Concrete evaluation of the anomaly branch on `dfNum3` when both
detectors flag exactly row 0. -/
lemma eval_detect_dfNum3 :
    detect_anomalies dfNum3 (Except.ok [-1, 1, 1])
        (Except.ok [-1, 1, 1]) =
      { isolation_count := 1, dbscan_count := 1,
        isolation_flags := [true, false, false],
        dbscan_flags := [true, false, false],
        combined_flags := [true, false, false],
        summary := some
          { total_rows := 3, total_anomalies := 1, anomaly_rate := 1 / 3,
            numeric_columns_analyzed := ["x"] } } := by
  rw [detect_eq_nonempty _ _ prep_dfNum3_isEmpty, prep_dfNum3]
  norm_num [_isolation_forest_detection, _dbscan_detection, countTrue,
    dfNum3, Dataset.nrows, List.filter_cons]

/-- Concrete evaluation of the outlier rule on `dfNum3`: no cell is more
than three (non-flagged-population) standard deviations out. -/
lemma eval_outliers_dfNum3 : _check_outliers dfNum3 = [] := by
  have hxs : nonNullNums [Cell.num 0, Cell.num 1, Cell.num 2] =
      [0, 1, 2] := rfl
  have hm : mean [0, 1, 2] = 1 := by norm_num [mean]
  have hv : sampleVar [0, 1, 2] = 1 := by norm_num [sampleVar, mean]
  simp only [_check_outliers, dfNum3, List.filterMap_cons,
    List.filterMap_nil, hxs, hm, hv]
  norm_num [List.filter_cons]

/-- Concrete evaluation of the quality branch on `dfNum3`: no issue. -/
lemma eval_quality_dfNum3 :
    DataQualityValidator.validate parseAll dfNum3 = [] := by
  have h1 : _check_missing_values dfNum3 = [] := rfl
  have h2 : _check_duplicates dfNum3 = [] := rfl
  have h3 : _check_data_types parseAll dfNum3 = [] := rfl
  rw [DataQualityValidator.validate, h1, h2, h3, eval_outliers_dfNum3]
  rfl

/-- Concrete evaluation of the full orchestrator run behind `c1run`. -/
lemma eval_c1run :
    c1run = Except.ok
      { anomalies :=
          { isolation_count := 1, dbscan_count := 1,
            isolation_flags := [true, false, false],
            dbscan_flags := [true, false, false],
            combined_flags := [true, false, false],
            summary := some
              { total_rows := 3, total_anomalies := 1,
                anomaly_rate := 1 / 3,
                numeric_columns_analyzed := ["x"] } },
        quality_issues := [],
        summary :=
          { total_rows := 3, total_anomalies := 2,
            total_quality_issues := 0, anomaly_rate := 2 / 3,
            validation_passed := false } } := by
  rw [c1run, validate_run, eval_detect_dfNum3, eval_quality_dfNum3,
    validate_data]
  norm_num [dfNum3, Dataset.nrows]

/-- C1 counterexample: on `dfNum3` with both detectors flagging exactly
row 0, the orchestrator summary's `total_anomalies` is 2 and its
`anomaly_rate` is 2/3, while the AnomalyReport's combined-OR count is 1
(rate 1/3): the claimed equalities are false on this run. -/
theorem C1_counterexample :
    (c1run.toOption.map (fun rep =>
      (rep.summary.total_anomalies,
        countTrue rep.anomalies.combined_flags)) = some (2, 1)) ∧
    (c1run.toOption.map (fun rep => decide
      (rep.summary.total_anomalies =
        countTrue rep.anomalies.combined_flags)) = some false) ∧
    (c1run.toOption.map (fun rep => decide
      (rep.summary.anomaly_rate =
        (countTrue rep.anomalies.combined_flags : ℚ) /
          rep.summary.total_rows)) = some false) := by
  rw [eval_c1run]
  refine ⟨rfl, ?_, ?_⟩ <;>
    norm_num [Except.toOption, countTrue, List.filter_cons]

/-- C1 amended: the orchestrator summary's `total_anomalies` is the SUM
of the two per-detector counts (double-counting rows flagged by both
methods), not the combined-OR count; `anomaly_rate` is that sum divided
by `total_rows` (0 when 0 rows); `validation_passed` is nevertheless
true iff the combined-OR count is 0 and the quality-issue list is empty,
since the sum vanishes exactly when the OR-count does. -/
theorem C1_amended (df : Dataset) (c1 c2 : Except String (List Int))
    (pn : String → Bool)
    (h1 : ∀ l, c1 = Except.ok l → l.length = df.nrows)
    (h2 : ∀ l, c2 = Except.ok l → l.length = df.nrows) :
    ((validate_run df c1 c2 pn).toOption.map
        (fun rep => rep.summary.total_anomalies) =
      some ((detect_anomalies df c1 c2).isolation_count +
        (detect_anomalies df c1 c2).dbscan_count)) ∧
    ((validate_run df c1 c2 pn).toOption.map
        (fun rep => rep.summary.anomaly_rate) =
      some (if 0 < df.nrows then
        ((((detect_anomalies df c1 c2).isolation_count +
          (detect_anomalies df c1 c2).dbscan_count : ℕ)) : ℚ) /
          (df.nrows : ℚ)
        else 0)) ∧
    ((validate_run df c1 c2 pn).toOption.map
        (fun rep => rep.summary.validation_passed) = some true ↔
      countTrue (detect_anomalies df c1 c2).combined_flags = 0 ∧
        DataQualityValidator.validate pn df = []) := by
  refine ⟨rfl, rfl, ?_⟩
  simp only [validate_run, validate_data, Except.toOption, Option.map,
    Option.some.injEq, Bool.and_eq_true, decide_eq_true_eq,
    List.length_eq_zero]
  apply and_congr_left'
  rw [Nat.add_eq_zero]
  cases hE : (_prepare_numeric_data df).isEmpty with
  | true =>
      rw [detect_eq_empty c1 c2 hE]
      simp [countTrue_nil]
  | false =>
      rw [detect_eq_nonempty c1 c2 hE]
      have hn := prepare_nrows_of_not_empty hE
      have hil := isolation_flags_length (_prepare_numeric_data df) c1
        (fun l hl => by rw [hn]; exact h1 l hl)
      have hdl := dbscan_flags_length (_prepare_numeric_data df) c2
        (fun l hl => by rw [hn]; exact h2 l hl)
      rw [isolation_count_eq, dbscan_count_eq,
        countTrue_zipWith_or_eq_zero _ _ (by rw [hil, hdl])]

/-- Witness for C1 amended at the `dfNum3` run of the counterexample. -/
theorem C1_amended_witness :
    ((validate_run dfNum3 (Except.ok [-1, 1, 1]) (Except.ok [-1, 1, 1])
        parseAll).toOption.map
        (fun rep => rep.summary.total_anomalies) =
      some ((detect_anomalies dfNum3 (Except.ok [-1, 1, 1])
          (Except.ok [-1, 1, 1])).isolation_count +
        (detect_anomalies dfNum3 (Except.ok [-1, 1, 1])
          (Except.ok [-1, 1, 1])).dbscan_count)) ∧
    ((validate_run dfNum3 (Except.ok [-1, 1, 1]) (Except.ok [-1, 1, 1])
        parseAll).toOption.map
        (fun rep => rep.summary.anomaly_rate) =
      some (if 0 < dfNum3.nrows then
        ((((detect_anomalies dfNum3 (Except.ok [-1, 1, 1])
            (Except.ok [-1, 1, 1])).isolation_count +
          (detect_anomalies dfNum3 (Except.ok [-1, 1, 1])
            (Except.ok [-1, 1, 1])).dbscan_count : ℕ)) : ℚ) /
          (dfNum3.nrows : ℚ)
        else 0)) ∧
    ((validate_run dfNum3 (Except.ok [-1, 1, 1]) (Except.ok [-1, 1, 1])
        parseAll).toOption.map
        (fun rep => rep.summary.validation_passed) = some true ↔
      countTrue (detect_anomalies dfNum3 (Except.ok [-1, 1, 1])
          (Except.ok [-1, 1, 1])).combined_flags = 0 ∧
        DataQualityValidator.validate parseAll dfNum3 = []) :=
  C1_amended dfNum3 (Except.ok [-1, 1, 1]) (Except.ok [-1, 1, 1])
    parseAll
    (fun l hl => by injection hl with h; rw [← h]; decide)
    (fun l hl => by injection hl with h; rw [← h]; decide)

/-- C9: on a zero-row dataset, the whole validation run completes (no
division by zero is ever taken: both rates sit behind `0 < row-count`
guards, and every quality percentage sits behind a `0 < count` emission
guard that zero rows falsifies), with `summary.total_rows = 0`, anomaly
rate 0, zero anomalies, and `validation_passed` true exactly when the
quality-issue list is empty. -/
theorem C9_zero_row_dataset (df : Dataset)
    (c1 c2 : Except String (List Int)) (pn : String → Bool)
    (hn : df.nrows = 0) :
    (validate_run df c1 c2 pn).isOk = true ∧
      ((validate_run df c1 c2 pn).toOption.map
        (fun rep => rep.summary.total_rows) = some 0) ∧
      ((validate_run df c1 c2 pn).toOption.map
        (fun rep => rep.summary.anomaly_rate) = some 0) ∧
      ((validate_run df c1 c2 pn).toOption.map
        (fun rep => rep.summary.total_anomalies) = some 0) ∧
      ((validate_run df c1 c2 pn).toOption.map
          (fun rep => rep.summary.validation_passed) = some true ↔
        DataQualityValidator.validate pn df = []) := by
  have hdet := detect_eq_empty c1 c2 (prepare_isEmpty_of_nrows_zero hn)
  rw [validate_run, hdet]
  simp only [validate_data, Except.toOption, Except.isOk, Option.map,
    Option.some.injEq, hn, lt_irrefl, if_false, Bool.and_eq_true,
    decide_eq_true_eq, List.length_eq_zero]
  simp [Except.toBool]

/-- Witness for C9 at the zero-row frame `dfEmpty`. -/
theorem C9_zero_row_dataset_witness :
    (validate_run dfEmpty (Except.ok []) (Except.ok [])
        parseAll).isOk = true ∧
      ((validate_run dfEmpty (Except.ok []) (Except.ok [])
        parseAll).toOption.map
        (fun rep => rep.summary.total_rows) = some 0) ∧
      ((validate_run dfEmpty (Except.ok []) (Except.ok [])
        parseAll).toOption.map
        (fun rep => rep.summary.anomaly_rate) = some 0) ∧
      ((validate_run dfEmpty (Except.ok []) (Except.ok [])
        parseAll).toOption.map
        (fun rep => rep.summary.total_anomalies) = some 0) ∧
      ((validate_run dfEmpty (Except.ok []) (Except.ok [])
          parseAll).toOption.map
          (fun rep => rep.summary.validation_passed) = some true ↔
        DataQualityValidator.validate parseAll dfEmpty = []) :=
  C9_zero_row_dataset dfEmpty (Except.ok []) (Except.ok []) parseAll
    (by decide)

/-- C4: the explainer computes exactly what §4.5 specifies — it
processes only the first `top_n` flagged rows in row order; for each
such row and each numeric column it reports the column as a reason
exactly when the absolute z-score against the mean/std of the
non-flagged rows only exceeds 2, with severity high above 3 and medium
otherwise, and it skips columns whose non-flagged standard deviation is
not positive.  Stated as: the source explainer equals the spec-side
explainer on every aligned input. -/
theorem C4_explainer_matches_spec (df : Dataset) (flags : List Bool)
    (top_n : ℕ) (hwf : df.wf = true) (hlen : flags.length = df.nrows) :
    explain_anomalies df flags top_n none = explainSpec df flags top_n := by
  show explain_core df flags top_n = explainSpec df flags top_n
  have hmap : ∀ i : ℕ,
      (df.cols.filter (fun c => c.dtype == Dtype.numeric)).filterMap
        (reasonFor flags i) =
      (df.cols.filter (fun c => c.dtype == Dtype.numeric)).filterMap
        (specReason df flags i) := fun i =>
    List.filterMap_congr (fun c hc =>
      reasonFor_eq_spec
        (wf_col_length hwf c (List.mem_filter.mp hc).1) hlen i)
  rw [explain_core, explainSpec]
  rw [flaggedRowIndices_eq_spec, hlen]
  simp only [hmap]

/-- Witness for C4 on `dfExplain` with row 0 flagged. -/
theorem C4_explainer_matches_spec_witness :
    explain_anomalies dfExplain flagsExplain 5 none =
      explainSpec dfExplain flagsExplain 5 :=
  C4_explainer_matches_spec dfExplain flagsExplain 5 (by decide)
    (by decide)
